import Mathlib

/-!
Shallow embedding of the deterministic-bitcoin-commitment (DBC) script-pubkey
component (`src/bp/dbc/scriptpubkey.rs`) and of the bech32 string layer
(`src/bech32.rs`) of the repository, together with theorems settling the
frozen claims about them.

Machine integers and byte strings are modelled as `Nat` / `List Nat`.
External collaborators (secp256k1 point arithmetic, SHA-256 / HMAC-SHA256,
script serialization hashes) are bundled into a `Prim` record of abstract
executable functions over which all universal theorems are quantified; a
concrete instance `primEx` is used for witnesses and counterexamples.
-/

/-- Decidable equality for `Except`, so that concrete runs of the embedded
fallible operations can be checked by `decide`. -/
instance {ε α : Type} [DecidableEq ε] [DecidableEq α] : DecidableEq (Except ε α)
  | .ok a, .ok b =>
    match decEq a b with
    | isTrue h => isTrue (h ▸ rfl)
    | isFalse h => isFalse (fun hh => h (Except.ok.inj hh))
  | .error a, .error b =>
    match decEq a b with
    | isTrue h => isTrue (h ▸ rfl)
    | isFalse h => isFalse (fun hh => h (Except.error.inj hh))
  | .ok _, .error _ => isFalse (fun hh => Except.noConfusion hh)
  | .error _, .ok _ => isFalse (fun hh => Except.noConfusion hh)

namespace Dbc

/-- Rendering strategy of the repository's `GenerateScripts::to_script_pubkey`
(module `bp::scripts`, not part of the excerpt). Variants as in the source:
`Exposed`, `LegacyHashed`, `WitnessV0`, `WitnessScriptHash`. -/
inductive Strategy where
  | exposed
  | legacyHashed
  | witnessV0
  | witnessScriptHash
deriving DecidableEq

/-- Modelled from the spec: a lock-script ("an explicit script whose embedded
key is the tweak target", spec glossary). It carries one embedded public key
(`keyField`, the tweak target) plus the remaining opaque script content
(`body`). The concrete `LockScript` type lives outside the excerpt. -/
structure LockScript where
  keyField : Nat
  body : Nat
deriving DecidableEq

/-- Modelled from the spec: the standard output-script descriptor produced by
the external script parser (spec §4.2 step 1). A script pubkey is represented
directly by its classified shape; the payloads are the hashes / keys / data
the corresponding real script carries. `p2s` is the plain/exposed script. -/
inductive Script where
  | p2pk (pk : Nat)
  | p2pkh (h : Nat)
  | p2sh (h : Nat)
  | p2wpkh (h : Nat)
  | p2wsh (h : Nat)
  | p2or (data : List Nat)
  | p2tr (x : Nat)
  | p2s (s : LockScript)
deriving DecidableEq

/-- `ScriptInfo` from `src/bp/dbc/mod.rs` (declared outside the excerpt, used
by `scriptpubkey.rs`): `None`, `LockScript(script)`, `Taproot(hash)`. -/
inductive ScriptInfo where
  | none
  | lockScript (s : LockScript)
  | taproot (h : Nat)
deriving DecidableEq

/-- `ScriptPubkeyComposition` from `src/bp/dbc/scriptpubkey.rs`. -/
inductive ScriptPubkeyComposition where
  | publicKey
  | pubkeyHash
  | scriptHash
  | wPubkeyHash
  | wScriptHash
  | shwPubkeyHash
  | shwScriptHash
  | tapRoot
  | opReturn
  | plainScript
deriving DecidableEq

/-- `Proof` from `src/bp/dbc/mod.rs`: public key plus `ScriptInfo`. -/
structure Proof where
  pubkey : Nat
  script_info : ScriptInfo
deriving DecidableEq

/-- `ScriptPubkeyContainer` from `src/bp/dbc/scriptpubkey.rs`. -/
structure ScriptPubkeyContainer where
  pubkey : Nat
  script_info : ScriptInfo
  scriptpubkey_composition : ScriptPubkeyComposition
  tag : Nat
  tweaking_factor : Option Nat
deriving DecidableEq

/-- Error type of the DBC module. `invalidProofStructure` is
`Error::InvalidProofStructure`. `unimplementedTaproot` models the
`unimplemented!()` panic terminating the taproot branch of `embed_commit`:
in the embedding a panic is a distinguished terminal error, so that "returns
with an error" and "panics" are both visible as `Except.error`. -/
inductive Error where
  | invalidProofStructure
  | unimplementedTaproot
deriving DecidableEq

/-- Modelled from the spec: the external cryptographic collaborators (spec
§6) and the script-serialization hashes. `hmac tag pubkey msg` is the
tweak-factor derivation "a keyed hash (HMAC-SHA256) over (tag,
target-primitive bytes, msg)" (spec §4.4); `ecAdd` applies a tweak to a
public key; `serialize` is compressed public-key serialization; the `hash*`
fields are the script/key hashes used by the renderings of
`GenerateScripts::to_script_pubkey`: `hashPk` hashes a public key (P2PKH and
P2WPKH programs), `hashWpkhRedeem` hashes the P2WPKH redeem script of a key
(for P2SH-wrapped P2WPKH), `hashLock` hashes a lock script (P2SH),
`hashWsh` hashes it for the v0 witness program (P2WSH) and `hashWshRedeem`
hashes its P2WSH redeem script (for P2SH-wrapped P2WSH). All are total:
primitive-level failures (malformed keys) are out of scope (spec §6). -/
structure Prim where
  hmac : Nat → Nat → List Nat → Nat
  ecAdd : Nat → Nat → Nat
  serialize : Nat → List Nat
  hashPk : Nat → Nat
  hashWpkhRedeem : Nat → Nat
  hashLock : LockScript → Nat
  hashWsh : LockScript → Nat
  hashWshRedeem : LockScript → Nat

/-- Modelled from the spec: `GenerateScripts::to_script_pubkey` for a public
key (module `bp::scripts`, outside the excerpt): `Exposed` exposes the key
(P2PK), `LegacyHashed` hashes it (P2PKH), `WitnessV0` gives the v0 witness
program (P2WPKH), `WitnessScriptHash` wraps the witness program into P2SH. -/
def pubkey_to_script_pubkey (prim : Prim) : Strategy → Nat → Script
  | .exposed, pk => .p2pk pk
  | .legacyHashed, pk => .p2pkh (prim.hashPk pk)
  | .witnessV0, pk => .p2wpkh (prim.hashPk pk)
  | .witnessScriptHash, pk => .p2sh (prim.hashWpkhRedeem pk)

/-- Modelled from the spec: `GenerateScripts::to_script_pubkey` for a lock
script: `Exposed` exposes the raw script (P2S), `LegacyHashed` hashes it
(P2SH), `WitnessV0` gives the v0 witness program (P2WSH),
`WitnessScriptHash` wraps the witness program into P2SH. -/
def lockscript_to_script_pubkey (prim : Prim) : Strategy → LockScript → Script
  | .exposed, s => .p2s s
  | .legacyHashed, s => .p2sh (prim.hashLock s)
  | .witnessV0, s => .p2wsh (prim.hashWsh s)
  | .witnessScriptHash, s => .p2sh (prim.hashWshRedeem s)

/-- Modelled from the spec: `LNPBP1Commitment::embed_commit` over an
`LNPBP1Container{pubkey, tag}` (spec §4.4, pay-to-contract pattern): the
tweak factor is the keyed hash over (tag, key, msg) and the committed key is
the original key shifted by the factor. Returns (tweaked key, factor). -/
def lnpbp1_commit (prim : Prim) (pubkey tag : Nat) (msg : List Nat) : Nat × Nat :=
  let factor := prim.hmac tag pubkey msg
  (prim.ecAdd pubkey factor, factor)

/-- Modelled from the spec: `LockscriptCommitment::embed_commit` over a
`LockscriptContainer{script, pubkey, tag}` (spec §4.4): the tweak factor is
derived from (tag, the container's target key, msg) and applied to the
script's embedded key, producing the committed lock script. Returns
(tweaked script, factor). -/
def lockscript_commit (prim : Prim) (script : LockScript) (pubkey tag : Nat)
    (msg : List Nat) : LockScript × Nat :=
  let factor := prim.hmac tag pubkey msg
  ({ keyField := prim.ecAdd script.keyField factor, body := script.body }, factor)

/-- Modelled from the spec: `TaprootCommitment::embed_commit` over a
`TaprootContainer{script_root, intermediate_key, tag}` (spec §4.4): derives
the tweak factor from (tag, intermediate key, msg). Only the factor is
relevant here: the source never assembles a taproot output script. -/
def taproot_commit (prim : Prim) (_script_root pubkey tag : Nat)
    (msg : List Nat) : Nat :=
  prim.hmac tag pubkey msg

/-- `ScriptPubkeyCommitment::embed_commit` from
`src/bp/dbc/scriptpubkey.rs` (lines 197-249), with the `&mut container`
calling convention made explicit: the result pairs the `Result` value with
the final state of the container (mutations performed before an early
return are kept, as they are in Rust). The bare-key branch's match arms are
exactly the source's: note it handles `SHWScriptHash`, not `SHWPubkeyHash`.
The taproot branch ends in `unimplemented!()`, modelled as
`Error.unimplementedTaproot`. -/
def embed_commit (prim : Prim) (container : ScriptPubkeyContainer)
    (msg : List Nat) : Except Error Script × ScriptPubkeyContainer :=
  match container.script_info with
  | .lockScript lockscript =>
    let (tweaked, factor) :=
      lockscript_commit prim lockscript container.pubkey container.tag msg
    let container := { container with tweaking_factor := some factor }
    match container.scriptpubkey_composition with
    | .plainScript => (.ok (lockscript_to_script_pubkey prim .exposed tweaked), container)
    | .scriptHash => (.ok (lockscript_to_script_pubkey prim .legacyHashed tweaked), container)
    | .wScriptHash => (.ok (lockscript_to_script_pubkey prim .witnessV0 tweaked), container)
    | .shwScriptHash => (.ok (lockscript_to_script_pubkey prim .witnessScriptHash tweaked), container)
    | _ => (.error .invalidProofStructure, container)
  | .taproot taproot_hash =>
    if container.scriptpubkey_composition ≠ .tapRoot then
      (.error .invalidProofStructure, container)
    else
      let factor := taproot_commit prim taproot_hash container.pubkey container.tag msg
      let container := { container with tweaking_factor := some factor }
      (.error .unimplementedTaproot, container)
  | .none =>
    let (pubkey, factor) := lnpbp1_commit prim container.pubkey container.tag msg
    let container := { container with tweaking_factor := some factor }
    match container.scriptpubkey_composition with
    | .publicKey => (.ok (pubkey_to_script_pubkey prim .exposed pubkey), container)
    | .pubkeyHash => (.ok (pubkey_to_script_pubkey prim .legacyHashed pubkey), container)
    | .wPubkeyHash => (.ok (pubkey_to_script_pubkey prim .witnessV0 pubkey), container)
    | .shwScriptHash => (.ok (pubkey_to_script_pubkey prim .witnessScriptHash pubkey), container)
    | .opReturn => (.ok (.p2or (prim.serialize pubkey)), container)
    | _ => (.error .invalidProofStructure, container)

/-- Shape-consistency check of `ScriptPubkeyContainer::reconstruct`
(`src/bp/dbc/scriptpubkey.rs` lines 124-147), as a boolean: the final
`match composition { ... }` that pairs each composition with the required
`ScriptInfo` variant. -/
def shape_ok : ScriptPubkeyComposition → ScriptInfo → Bool
  | .publicKey, .none => true
  | .pubkeyHash, .none => true
  | .wPubkeyHash, .none => true
  | .shwPubkeyHash, .none => true
  | .opReturn, .none => true
  | .plainScript, .lockScript _ => true
  | .scriptHash, .lockScript _ => true
  | .wScriptHash, .lockScript _ => true
  | .shwScriptHash, .lockScript _ => true
  | .tapRoot, .taproot _ => true
  | _, _ => false

/-- `ScriptPubkeyContainer::reconstruct` from `src/bp/dbc/scriptpubkey.rs`
(lines 77-156). The descriptor classification (`ScriptPubkeyDescriptor::
try_from(host)`) is the identity on the `Script` model, whose constructors
are the descriptor kinds. The intermediate `step` computes the composition
and the (possibly rewritten, for P2S hosts) `script_info` of the cloned
proof, exactly as the source's `match` over the descriptor; then the shape
check runs on the rewritten `script_info` and the fresh container is
returned. -/
def reconstruct (prim : Prim) (proof : Proof) (supplement : Nat)
    (host : Script) : Except Error ScriptPubkeyContainer :=
  let lockscript : Option LockScript :=
    match proof.script_info with
    | .lockScript s => some s
    | _ => Option.none
  let step : Except Error (ScriptPubkeyComposition × ScriptInfo) :=
    match host with
    | .p2sh script_hash =>
      let script := Script.p2sh script_hash
      match lockscript with
      | some s =>
        if lockscript_to_script_pubkey prim .legacyHashed s = script then
          .ok (.scriptHash, proof.script_info)
        else if lockscript_to_script_pubkey prim .witnessScriptHash s = script then
          .ok (.shwScriptHash, proof.script_info)
        else .error .invalidProofStructure
      | Option.none =>
        if pubkey_to_script_pubkey prim .witnessScriptHash proof.pubkey = script then
          .ok (.shwPubkeyHash, proof.script_info)
        else .error .invalidProofStructure
    | .p2s s => .ok (.plainScript, .lockScript s)
    | .p2pk _ => .ok (.pubkeyHash, proof.script_info)
    | .p2pkh _ => .ok (.publicKey, proof.script_info)
    | .p2or _ => .ok (.opReturn, proof.script_info)
    | .p2wpkh _ => .ok (.wPubkeyHash, proof.script_info)
    | .p2wsh _ => .ok (.wScriptHash, proof.script_info)
    | .p2tr _ => .ok (.tapRoot, proof.script_info)
  match step with
  | .error e => .error e
  | .ok (composition, script_info) =>
    if shape_ok composition script_info then
      .ok { pubkey := proof.pubkey, script_info := script_info,
            scriptpubkey_composition := composition, tag := supplement,
            tweaking_factor := Option.none }
    else .error .invalidProofStructure

/-- `Container::to_proof` for `ScriptPubkeyContainer`
(`src/bp/dbc/scriptpubkey.rs` lines 167-172). -/
def to_proof (c : ScriptPubkeyContainer) : Proof :=
  { pubkey := c.pubkey, script_info := c.script_info }

/-- Compositions on which the lock-script branch of `embed_commit` errors
(the `_` arm of its rendering match). -/
def lockscript_render_error : ScriptPubkeyComposition → Bool
  | .plainScript => false
  | .scriptHash => false
  | .wScriptHash => false
  | .shwScriptHash => false
  | _ => true

/-- Compositions on which the bare-key branch of `embed_commit` errors
(the `_` arm of its rendering match; note `shwScriptHash`, not
`shwPubkeyHash`, is the rendered one in the source). -/
def barekey_render_error : ScriptPubkeyComposition → Bool
  | .publicKey => false
  | .pubkeyHash => false
  | .wPubkeyHash => false
  | .shwScriptHash => false
  | .opReturn => false
  | _ => true

/-- Script-info/composition pairs for which the committed output script can
be reconstructed: the P2SH-rendering compositions are excluded, since for
them `reconstruct` compares renderings of the untweaked proof against the
tweaked host. -/
def roundtrip_safe : ScriptInfo → ScriptPubkeyComposition → Bool
  | .none, .publicKey => true
  | .none, .pubkeyHash => true
  | .none, .wPubkeyHash => true
  | .none, .opReturn => true
  | .lockScript _, .plainScript => true
  | .lockScript _, .wScriptHash => true
  | _, _ => false

/-- Concrete stand-in for the external primitives, used by witnesses and
counterexamples. The functions are simple injective-on-the-relevant-inputs
arithmetic stand-ins for the real hash/EC collaborators; the claims never
depend on their internals, only on determinism and (at concrete inputs)
distinctness of distinct renderings. -/
def primEx : Prim :=
  { hmac := fun tag pubkey msg => tag + pubkey + msg.length + 1
    ecAdd := fun p f => p + f
    serialize := fun p => [p]
    hashPk := fun p => p + 1000000
    hashWpkhRedeem := fun p => p + 2000000
    hashLock := fun s => s.keyField * 1000 + s.body
    hashWsh := fun s => s.keyField * 1000 + s.body + 3000000
    hashWshRedeem := fun s => s.keyField * 1000 + s.body + 4000000 }

end Dbc

namespace B32

/-- Error type of `src/bech32.rs`. `wrongHrp` is the source's variant named
after a wrong human-readable bech32 part (`Error::WrongPrefix` in the
source); `wrongData` is `Error::WrongData` (raised, e.g., when reading the
version byte from an empty payload); `unknownRawDataEncoding` and
`inflateError` are the homonymous source variants. The bech32 parse-error
variant never arises in the model because the external bech32 codec is
modelled as total. -/
inductive Error where
  | wrongData
  | wrongHrp
  | unknownRawDataEncoding (v : Nat)
  | deflateEncoding
  | inflateError (e : String)
deriving DecidableEq

/-- Modelled from the spec: a well-formed bech32 string of the external
bech32 collaborator, represented by its human-readable part and its decoded
byte payload (the composition of `bech32::decode` and
`Vec::<u8>::from_base32`, which is inverse to `bech32::encode` composed
with `to_base32`). -/
structure Bech32Str where
  hrp : String
  data : List Nat
deriving DecidableEq

/-- `RAW_DATA_ENCODING_DEFLATE` from `src/bech32.rs`. -/
def RAW_DATA_ENCODING_DEFLATE : Nat := 1

/-- `HRP_DATA` from `src/bech32.rs`. -/
def HRP_DATA : String := "data"

/-- `HRP_ZIP` from `src/bech32.rs`. -/
def HRP_ZIP : String := "z"

/-- `zip::payload_to_bech32_zip_string` from `src/bech32.rs`: the DEFLATE
writer is initialized with the version byte `RAW_DATA_ENCODING_DEFLATE`, so
the encoded payload is that byte followed by the compressed payload. The
external DEFLATE compressor is the function argument `deflate`. -/
def payload_to_bech32_zip_string (deflate : List Nat → List Nat)
    (hrp : String) (payload : List Nat) : Bech32Str :=
  ⟨hrp, RAW_DATA_ENCODING_DEFLATE :: deflate payload⟩

/-- `zip::bech32_zip_str_to_payload` from `src/bech32.rs`: check the
human-readable part, read the version byte (an empty payload fails the read
with `WrongData`), inflate the remainder if the version byte is
`RAW_DATA_ENCODING_DEFLATE`, and reject any other version byte with
`UnknownRawDataEncoding`. The external `inflate::inflate_bytes` is the
function argument `inflate`. -/
def bech32_zip_str_to_payload (inflate : List Nat → Except String (List Nat))
    (hrp : String) (s : Bech32Str) : Except Error (List Nat) :=
  if s.hrp ≠ hrp then .error .wrongHrp
  else
    match s.data with
    | [] => .error .wrongData
    | v :: rest =>
      if v = RAW_DATA_ENCODING_DEFLATE then
        match inflate rest with
        | .ok decoded => .ok decoded
        | .error e => .error (.inflateError e)
      else .error (.unknownRawDataEncoding v)

/-- `Blob` from `src/bech32.rs`: a byte-vector wrapper. -/
structure Blob where
  inner : List Nat
deriving DecidableEq

/-- `Bech32DataString::bech32_data_string` from `src/bech32.rs` as it
applies to `Blob` (whose bech32 payload is its byte content): encode the
payload under the hardcoded `HRP_DATA` human-readable part. -/
def Blob.bech32_data_string (b : Blob) : Bech32Str :=
  ⟨HRP_DATA, b.inner⟩

/-- `FromBech32DataStr::from_bech32_data_str` from `src/bech32.rs` as it
applies to `Blob`: decode, reject a human-readable part different from
`HRP_DATA`, and convert the payload (infallible for `Blob`, whose
`TryFrom<Vec<u8>>` conversion cannot fail). -/
def Blob.from_bech32_data_str (s : Bech32Str) : Except Error Blob :=
  if s.hrp ≠ HRP_DATA then .error .wrongHrp
  else .ok ⟨s.data⟩

end B32

namespace Dbc

/-- C8: for every `Proof` (whatever its `ScriptInfo` variant) and every host
classified as a plain/exposed script (P2S), `reconstruct` succeeds with
composition `PlainScript` and with `script_info` rewritten to `LockScript`
carrying the host script itself. -/
theorem c8_plain_script_rewrite (prim : Prim) (proof : Proof) (supp : Nat)
    (s : LockScript) :
    reconstruct prim proof supp (.p2s s) =
      .ok ⟨proof.pubkey, .lockScript s, .plainScript, supp, Option.none⟩ := by
  cases hsi : proof.script_info <;> simp [reconstruct, shape_ok, hsi]

/-- C7: whenever `reconstruct` succeeds, the returned container has
`tweaking_factor = None`, `tag` equal to the supplied supplement, and
`pubkey` equal to the proof's public key. -/
theorem c7_reconstruct_fresh (prim : Prim) (proof : Proof) (supp : Nat)
    (host : Script) (c : ScriptPubkeyContainer)
    (h : reconstruct prim proof supp host = .ok c) :
    c.tweaking_factor = Option.none ∧ c.tag = supp ∧ c.pubkey = proof.pubkey := by
  obtain ⟨pk, si⟩ := proof
  cases host <;> cases si <;>
    simp only [reconstruct, shape_ok] at h <;>
    (repeat' split at h) <;>
    first
      | exact Except.noConfusion h
      | (injection h with h; subst h; exact ⟨rfl, rfl, rfl⟩)

/-- Witness for C7 at a concrete reconstruction. -/
theorem c7_reconstruct_fresh_witness :
    (⟨1, .none, .pubkeyHash, 3, Option.none⟩ : ScriptPubkeyContainer).tweaking_factor = Option.none ∧
    (⟨1, .none, .pubkeyHash, 3, Option.none⟩ : ScriptPubkeyContainer).tag = 3 ∧
    (⟨1, .none, .pubkeyHash, 3, Option.none⟩ : ScriptPubkeyContainer).pubkey =
      (⟨1, ScriptInfo.none⟩ : Proof).pubkey :=
  c7_reconstruct_fresh primEx ⟨1, .none⟩ 3 (.p2pk 9)
    ⟨1, .none, .pubkeyHash, 3, Option.none⟩ (by decide)

/-- C3 counterexample: a `Taproot` proof contains no lock-script, and its
public key's script-hash-wrapped witness-pubkey-hash rendering equals the
P2SH host, yet `reconstruct` does not select `SHWPubkeyHash`: the selected
composition fails the shape check (it requires `script_info = None`) and
the call returns `InvalidProofStructure`, falsifying the claim's
no-lock-script branch. -/
theorem c3_counterexample :
    pubkey_to_script_pubkey primEx .witnessScriptHash 5 = Script.p2sh 2000005 ∧
    reconstruct primEx ⟨5, .taproot 1⟩ 0 (.p2sh 2000005) =
      .error .invalidProofStructure := by decide

/-- C3 (amended): P2SH disambiguation of `reconstruct`. With a lock-script
in the proof, `ScriptHash` is selected when the lock-script's legacy-hashed
rendering equals the host, else `SHWScriptHash` when its witness-script-hash
rendering equals the host, else the call fails with
`InvalidProofStructure`. Without a lock-script the no-lock-script
comparison selects `SHWPubkeyHash` only for a bare-key proof
(`script_info = None`): then the call succeeds when the public key's
script-hash-wrapped witness-pubkey-hash rendering equals the host and fails
otherwise; for a `Taproot` proof (which also has no lock-script) the call
always fails with `InvalidProofStructure`, even when that rendering equals
the host, because the selected `SHWPubkeyHash` composition requires
`script_info = None`. -/
theorem c3_p2sh_disambiguation (prim : Prim) (proof : Proof) (supp : Nat)
    (h : Nat) :
    (∀ s, proof.script_info = .lockScript s →
      reconstruct prim proof supp (.p2sh h) =
        (if lockscript_to_script_pubkey prim .legacyHashed s = Script.p2sh h then
          .ok ⟨proof.pubkey, proof.script_info, .scriptHash, supp, Option.none⟩
        else if lockscript_to_script_pubkey prim .witnessScriptHash s = Script.p2sh h then
          .ok ⟨proof.pubkey, proof.script_info, .shwScriptHash, supp, Option.none⟩
        else .error .invalidProofStructure)) ∧
    (proof.script_info = .none →
      reconstruct prim proof supp (.p2sh h) =
        (if pubkey_to_script_pubkey prim .witnessScriptHash proof.pubkey = Script.p2sh h then
          .ok ⟨proof.pubkey, .none, .shwPubkeyHash, supp, Option.none⟩
        else .error .invalidProofStructure)) ∧
    (∀ t, proof.script_info = .taproot t →
      reconstruct prim proof supp (.p2sh h) = .error .invalidProofStructure) := by
  refine ⟨?_, ?_, ?_⟩
  · intro s hsi
    by_cases hA : lockscript_to_script_pubkey prim .legacyHashed s = Script.p2sh h
    · simp [reconstruct, hsi, hA, shape_ok]
    · by_cases hB : lockscript_to_script_pubkey prim .witnessScriptHash s = Script.p2sh h
      · simp [reconstruct, hsi, hA, hB, shape_ok]
      · simp [reconstruct, hsi, hA, hB]
  · intro hsi
    by_cases hA : pubkey_to_script_pubkey prim .witnessScriptHash proof.pubkey = Script.p2sh h
    · simp [reconstruct, hsi, hA, shape_ok]
    · simp [reconstruct, hsi, hA]
  · intro t hsi
    by_cases hA : pubkey_to_script_pubkey prim .witnessScriptHash proof.pubkey = Script.p2sh h
    · simp [reconstruct, hsi, hA, shape_ok]
    · simp [reconstruct, hsi, hA]

/-- Witness for C3 (amended): all three disambiguation branches at concrete
inputs, including the taproot-proof failure with a matching rendering. -/
theorem c3_p2sh_disambiguation_witness :
    reconstruct primEx ⟨1, .lockScript ⟨1, 0⟩⟩ 0 (.p2sh 1000) =
      .ok ⟨1, .lockScript ⟨1, 0⟩, .scriptHash, 0, Option.none⟩ ∧
    reconstruct primEx ⟨5, .none⟩ 0 (.p2sh 2000005) =
      .ok ⟨5, .none, .shwPubkeyHash, 0, Option.none⟩ ∧
    reconstruct primEx ⟨7, .taproot 2⟩ 0 (.p2sh 2000007) =
      .error .invalidProofStructure := by
  refine ⟨?_, ?_, ?_⟩
  · have hc := (c3_p2sh_disambiguation primEx ⟨1, .lockScript ⟨1, 0⟩⟩ 0 1000).1 ⟨1, 0⟩ rfl
    rw [hc]; decide
  · have hc := (c3_p2sh_disambiguation primEx ⟨5, .none⟩ 0 2000005).2.1 rfl
    rw [hc]; decide
  · exact (c3_p2sh_disambiguation primEx ⟨7, .taproot 2⟩ 0 2000007).2.2 2 rfl

end Dbc

namespace Dbc

/-- C4 counterexample: the claim demands `InvalidProofStructure` whenever the
host-implied composition's required `ScriptInfo` variant differs from the
Proof's; but for a plain-script (P2S) host the implied composition is
`PlainScript` (which the claim pairs with `LockScript`) and a proof carrying
`script_info = None` is nevertheless accepted, because `reconstruct`
rewrites `script_info` before the shape check. -/
theorem c4_counterexample :
    reconstruct primEx ⟨1, .none⟩ 0 (.p2s ⟨2, 3⟩) =
      .ok ⟨1, .lockScript ⟨2, 3⟩, .plainScript, 0, Option.none⟩ := by decide

/-- C4 (amended): for every host whose descriptor is not the plain/exposed
script, a mismatch between the composition implied by the host and the
proof's `ScriptInfo` variant makes `reconstruct` fail with
`InvalidProofStructure`: the bare-key descriptors (P2PK, P2PKH, null-data,
P2WPKH) require `script_info = None`, P2WSH requires `LockScript`, taproot
requires `Taproot`, and a P2SH host against a `Taproot` proof fails (its
only bare-key composition, `SHWPubkeyHash`, requires `None`). For P2S hosts
the proof's `script_info` is rewritten, so no mismatch is possible there. -/
theorem c4_amended_shape_invariant (prim : Prim) (proof : Proof) (supp : Nat) :
    (∀ x, proof.script_info ≠ .none →
      reconstruct prim proof supp (.p2pk x) = .error .invalidProofStructure) ∧
    (∀ x, proof.script_info ≠ .none →
      reconstruct prim proof supp (.p2pkh x) = .error .invalidProofStructure) ∧
    (∀ d, proof.script_info ≠ .none →
      reconstruct prim proof supp (.p2or d) = .error .invalidProofStructure) ∧
    (∀ x, proof.script_info ≠ .none →
      reconstruct prim proof supp (.p2wpkh x) = .error .invalidProofStructure) ∧
    (∀ x, (∀ s, proof.script_info ≠ .lockScript s) →
      reconstruct prim proof supp (.p2wsh x) = .error .invalidProofStructure) ∧
    (∀ x, (∀ t, proof.script_info ≠ .taproot t) →
      reconstruct prim proof supp (.p2tr x) = .error .invalidProofStructure) ∧
    (∀ x t, proof.script_info = .taproot t →
      reconstruct prim proof supp (.p2sh x) = .error .invalidProofStructure) := by
  obtain ⟨pk, si⟩ := proof
  refine ⟨?_, ?_, ?_, ?_, ?_, ?_, ?_⟩
  · intro x hx
    cases si
    · exact absurd rfl hx
    · rfl
    · rfl
  · intro x hx
    cases si
    · exact absurd rfl hx
    · rfl
    · rfl
  · intro d hx
    cases si
    · exact absurd rfl hx
    · rfl
    · rfl
  · intro x hx
    cases si
    · exact absurd rfl hx
    · rfl
    · rfl
  · intro x hx
    cases si
    · rfl
    · exact absurd rfl (hx _)
    · rfl
  · intro x hx
    cases si
    · rfl
    · rfl
    · exact absurd rfl (hx _)
  · intro x t hsi
    simp only at hsi
    subst hsi
    by_cases hp : pubkey_to_script_pubkey prim Strategy.witnessScriptHash pk = Script.p2sh x
    · simp [reconstruct, hp, shape_ok]
    · simp [reconstruct, hp]

/-- Witness for C4 (amended) at concrete mismatching inputs. -/
theorem c4_amended_shape_invariant_witness :
    reconstruct primEx ⟨1, .taproot 7⟩ 0 (.p2pk 5) = .error .invalidProofStructure ∧
    reconstruct primEx ⟨1, .taproot 7⟩ 0 (.p2wsh 5) = .error .invalidProofStructure ∧
    reconstruct primEx ⟨1, .taproot 7⟩ 0 (.p2sh 5) = .error .invalidProofStructure ∧
    reconstruct primEx ⟨1, .none⟩ 0 (.p2tr 5) = .error .invalidProofStructure :=
  ⟨(c4_amended_shape_invariant primEx ⟨1, .taproot 7⟩ 0).1 5 (by decide),
   (c4_amended_shape_invariant primEx ⟨1, .taproot 7⟩ 0).2.2.2.2.1 5
     (fun s h => by cases h),
   (c4_amended_shape_invariant primEx ⟨1, .taproot 7⟩ 0).2.2.2.2.2.2 5 7 rfl,
   (c4_amended_shape_invariant primEx ⟨1, .none⟩ 0).2.2.2.2.2.1 5
     (fun t h => by cases h)⟩

/-- C5: invoking `embed_commit` on a container whose `script_info` is
`Taproot` never produces an output script: with any composition other than
`TapRoot` it fails fast with `InvalidProofStructure`, and with `TapRoot` it
reaches the deliberately unimplemented taproot script assembly (the
`unimplemented!()` terminal, modelled as the distinguished
`unimplementedTaproot` error). -/
theorem c5_taproot_rejected (prim : Prim) (c : ScriptPubkeyContainer)
    (msg : List Nat) (t : Nat) (h : c.script_info = .taproot t) :
    (embed_commit prim c msg).1 =
      .error (if c.scriptpubkey_composition = .tapRoot then
                Error.unimplementedTaproot
              else Error.invalidProofStructure) := by
  obtain ⟨pk, si, comp, tag, tf⟩ := c
  simp only at h
  subst h
  by_cases hc : comp = .tapRoot <;> simp [embed_commit, hc]

/-- Witness for C5 at both taproot compositions. -/
theorem c5_taproot_rejected_witness :
    (embed_commit primEx ⟨1, .taproot 7, .tapRoot, 0, Option.none⟩ []).1 =
      .error .unimplementedTaproot ∧
    (embed_commit primEx ⟨1, .taproot 7, .publicKey, 0, Option.none⟩ []).1 =
      .error .invalidProofStructure := by
  constructor
  · have hc := c5_taproot_rejected primEx ⟨1, .taproot 7, .tapRoot, 0, Option.none⟩ [] 7 rfl
    rw [hc]
    decide
  · have hc := c5_taproot_rejected primEx ⟨1, .taproot 7, .publicKey, 0, Option.none⟩ [] 7 rfl
    rw [hc]
    decide

/-- C6 counterexample: `embed_commit` terminates with `InvalidProofStructure`
(lock-script branch, composition `PublicKey` is not renderable there), yet
the container's `tweaking_factor` is no longer `None`: the factor was
written right after the nested lock-script primitive succeeded, before the
composition-rendering match raised the error. -/
theorem c6_counterexample :
    (embed_commit primEx ⟨2, .lockScript ⟨3, 4⟩, .publicKey, 5, Option.none⟩ [1]).1 =
      .error .invalidProofStructure ∧
    (embed_commit primEx ⟨2, .lockScript ⟨3, 4⟩, .publicKey, 5, Option.none⟩ [1]).2.tweaking_factor =
      some 9 := by decide

/-- C6 (amended): an error raised before the nested primitive runs (the
taproot-branch composition check) leaves the container, and in particular
its `tweaking_factor`, unchanged; but when `embed_commit` errors in the
composition-rendering match of the lock-script or bare-key branches, or at
the unimplemented taproot terminal, the nested primitive has already
succeeded and `tweaking_factor` has already been overwritten with its
factor. -/
theorem c6_amended_partial_state (prim : Prim) (c : ScriptPubkeyContainer)
    (msg : List Nat) :
    (∀ t, c.script_info = .taproot t → c.scriptpubkey_composition ≠ .tapRoot →
      embed_commit prim c msg = (.error .invalidProofStructure, c)) ∧
    (∀ s, c.script_info = .lockScript s →
      lockscript_render_error c.scriptpubkey_composition = true →
      embed_commit prim c msg =
        (.error .invalidProofStructure,
         { c with tweaking_factor := some (prim.hmac c.tag c.pubkey msg) })) ∧
    (c.script_info = .none →
      barekey_render_error c.scriptpubkey_composition = true →
      embed_commit prim c msg =
        (.error .invalidProofStructure,
         { c with tweaking_factor := some (prim.hmac c.tag c.pubkey msg) })) ∧
    (∀ t, c.script_info = .taproot t → c.scriptpubkey_composition = .tapRoot →
      embed_commit prim c msg =
        (.error .unimplementedTaproot,
         { c with tweaking_factor := some (prim.hmac c.tag c.pubkey msg) })) := by
  obtain ⟨pk, si, comp, tag, tf⟩ := c
  refine ⟨?_, ?_, ?_, ?_⟩
  · intro t hsi hcomp
    simp only at hsi
    subst hsi
    simp [embed_commit, hcomp]
  · intro s hsi hcomp
    simp only at hsi
    subst hsi
    cases comp <;> simp_all [embed_commit, lockscript_commit, lockscript_render_error]
  · intro hsi hcomp
    simp only at hsi
    subst hsi
    cases comp <;> simp_all [embed_commit, lnpbp1_commit, barekey_render_error]
  · intro t hsi hcomp
    simp only at hsi
    subst hsi
    subst hcomp
    simp [embed_commit, taproot_commit]

/-- Witness for C6 (amended): the before-primitive error leaves the factor
unset, the after-primitive errors leave it set. -/
theorem c6_amended_partial_state_witness :
    embed_commit primEx ⟨1, .taproot 7, .publicKey, 0, Option.none⟩ [] =
      (.error .invalidProofStructure, ⟨1, .taproot 7, .publicKey, 0, Option.none⟩) ∧
    embed_commit primEx ⟨2, .lockScript ⟨3, 4⟩, .publicKey, 5, Option.none⟩ [1] =
      (.error .invalidProofStructure,
       { (⟨2, .lockScript ⟨3, 4⟩, .publicKey, 5, Option.none⟩ : ScriptPubkeyContainer) with
         tweaking_factor := some (primEx.hmac 5 2 [1]) }) :=
  ⟨(c6_amended_partial_state primEx ⟨1, .taproot 7, .publicKey, 0, Option.none⟩ []).1 7
     rfl (by decide),
   (c6_amended_partial_state primEx ⟨2, .lockScript ⟨3, 4⟩, .publicKey, 5, Option.none⟩ [1]).2.1
     ⟨3, 4⟩ rfl (by decide)⟩

end Dbc

namespace Dbc

/-- C1 counterexample: a valid lock-script commitment with composition
`ScriptHash`. `embed_commit` succeeds, producing a P2SH output over the
hash of the tweaked lock script; but `reconstruct` on that output with the
same proof and tag fails with `InvalidProofStructure`, because it compares
the renderings of the untweaked proof lock script (hashes 1000 and 4001000)
against the tweaked host (hash 3000). -/
theorem c1_counterexample :
    (embed_commit primEx ⟨1, .lockScript ⟨1, 0⟩, .scriptHash, 0, Option.none⟩ []).1 =
      .ok (Script.p2sh 3000) ∧
    reconstruct primEx (to_proof ⟨1, .lockScript ⟨1, 0⟩, .scriptHash, 0, Option.none⟩) 0
      (Script.p2sh 3000) = .error .invalidProofStructure := by decide

/-- C1 (amended): the construct-then-reconstruct round trip holds for the
compositions whose host rendering does not wrap a hash of the tweaked
primitive into P2SH: with `script_info = None` for `PublicKey`,
`PubkeyHash`, `WPubkeyHash` and `OpReturn`, and with a lock script for
`PlainScript` and `WScriptHash`. For these, `embed_commit` succeeds,
`reconstruct` on the produced output script with the same proof and tag
succeeds, and re-running the embedding on the reconstructed container
recomputes the same `tweaking_factor` as the one produced during
construction. (For `ScriptHash`, `SHWScriptHash` and the P2SH-rendering
bare-key arm, `reconstruct` on the committed output fails, as the
counterexample shows.) -/
theorem c1_amended_roundtrip (prim : Prim) (c : ScriptPubkeyContainer)
    (msg : List Nat)
    (h : roundtrip_safe c.script_info c.scriptpubkey_composition = true) :
    ∃ host cr,
      (embed_commit prim c msg).1 = .ok host ∧
      reconstruct prim (to_proof c) c.tag host = .ok cr ∧
      (embed_commit prim cr msg).2.tweaking_factor =
        (embed_commit prim c msg).2.tweaking_factor := by
  obtain ⟨pk, si, comp, tag, tf⟩ := c
  cases si <;> cases comp <;>
    first
      | exact ⟨_, _, rfl, rfl, rfl⟩
      | exact Bool.noConfusion h

/-- Witness for C1 (amended) at a concrete bare-key container. -/
theorem c1_amended_roundtrip_witness :
    ∃ host cr,
      (embed_commit primEx ⟨1, .none, .publicKey, 0, Option.none⟩ []).1 = .ok host ∧
      reconstruct primEx (to_proof ⟨1, .none, .publicKey, 0, Option.none⟩)
        (⟨1, .none, .publicKey, 0, Option.none⟩ : ScriptPubkeyContainer).tag host = .ok cr ∧
      (embed_commit primEx cr []).2.tweaking_factor =
        (embed_commit primEx ⟨1, .none, .publicKey, 0, Option.none⟩ []).2.tweaking_factor :=
  c1_amended_roundtrip primEx ⟨1, .none, .publicKey, 0, Option.none⟩ [] (by decide)

/-- C2 evaluation at the failing inputs: with `script_info = None`, the
source's bare-key rendering match handles `SHWScriptHash` (producing the
script-hash-wrapped witness-pubkey-hash rendering of the tweaked key,
`p2sh 2000005` here) and sends `SHWPubkeyHash` to the catch-all error arm —
exactly the opposite of the claim, of spec §4.3, and of `reconstruct`'s own
shape invariant, which pairs `SHWPubkeyHash` with `None` and
`SHWScriptHash` with `LockScript`. -/
theorem c2_code_bug_eval :
    (embed_commit primEx ⟨2, .none, .shwPubkeyHash, 0, Option.none⟩ []).1 =
      .error .invalidProofStructure ∧
    (embed_commit primEx ⟨2, .none, .shwScriptHash, 0, Option.none⟩ []).1 =
      .ok (Script.p2sh 2000005) := by decide

end Dbc

namespace B32

/-- C9: the zip payload format is tagged by a single leading version byte.
Encoding emits `RAW_DATA_ENCODING_DEFLATE` (the byte 1) followed by the
DEFLATE-compressed payload; decoding rejects a wrong human-readable part
with the wrong-prefix error, rejects any other leading version byte `v`
with `UnknownRawDataEncoding v`, and inflates the remainder when the
leading byte is 1. -/
theorem c9_zip_version_byte (deflate : List Nat → List Nat)
    (inflate : List Nat → Except String (List Nat)) (hrp : String)
    (payload : List Nat) (s : Bech32Str) :
    payload_to_bech32_zip_string deflate hrp payload =
      ⟨hrp, RAW_DATA_ENCODING_DEFLATE :: deflate payload⟩ ∧
    (s.hrp ≠ hrp → bech32_zip_str_to_payload inflate hrp s = .error .wrongHrp) ∧
    (∀ v rest, s.hrp = hrp → s.data = v :: rest → v ≠ RAW_DATA_ENCODING_DEFLATE →
      bech32_zip_str_to_payload inflate hrp s = .error (.unknownRawDataEncoding v)) ∧
    (∀ rest d, s.hrp = hrp → s.data = RAW_DATA_ENCODING_DEFLATE :: rest →
      inflate rest = .ok d → bech32_zip_str_to_payload inflate hrp s = .ok d) ∧
    (∀ rest e, s.hrp = hrp → s.data = RAW_DATA_ENCODING_DEFLATE :: rest →
      inflate rest = .error e →
      bech32_zip_str_to_payload inflate hrp s = .error (.inflateError e)) := by
  obtain ⟨shrp, sdata⟩ := s
  refine ⟨rfl, ?_, ?_, ?_, ?_⟩
  · intro hne
    simp [bech32_zip_str_to_payload, hne]
  · intro v rest heq hdata hv
    simp only at heq hdata
    subst heq
    subst hdata
    simp [bech32_zip_str_to_payload, hv]
  · intro rest d heq hdata hinf
    simp only at heq hdata
    subst heq
    subst hdata
    simp [bech32_zip_str_to_payload, hinf]
  · intro rest e heq hdata hinf
    simp only at heq hdata
    subst heq
    subst hdata
    simp [bech32_zip_str_to_payload, hinf]

/-- Witness for C9 with the identity compressor at concrete strings. -/
theorem c9_zip_version_byte_witness :
    payload_to_bech32_zip_string (fun l => l) HRP_ZIP [7, 8] =
      ⟨HRP_ZIP, RAW_DATA_ENCODING_DEFLATE :: [7, 8]⟩ ∧
    bech32_zip_str_to_payload (fun l => .ok l) HRP_ZIP ⟨"data", [1, 2]⟩ =
      .error .wrongHrp ∧
    bech32_zip_str_to_payload (fun l => .ok l) HRP_ZIP ⟨"z", [3, 4]⟩ =
      .error (.unknownRawDataEncoding 3) ∧
    bech32_zip_str_to_payload (fun l => .ok l) HRP_ZIP ⟨"z", [1, 4]⟩ = .ok [4] :=
  ⟨(c9_zip_version_byte (fun l => l) (fun l => .ok l) HRP_ZIP [7, 8] ⟨"z", []⟩).1,
   (c9_zip_version_byte (fun l => l) (fun l => .ok l) HRP_ZIP [7, 8]
      ⟨"data", [1, 2]⟩).2.1 (by decide),
   (c9_zip_version_byte (fun l => l) (fun l => .ok l) HRP_ZIP [7, 8]
      ⟨"z", [3, 4]⟩).2.2.1 3 [4] rfl rfl (by decide),
   (c9_zip_version_byte (fun l => l) (fun l => .ok l) HRP_ZIP [7, 8]
      ⟨"z", [1, 4]⟩).2.2.2.1 [4] [4] rfl rfl rfl⟩

/-- C10: decoding the bech32 data string produced from a blob recovers the
blob's bytes exactly, and decoding any well-formed bech32 string whose
human-readable part differs from `"data"` fails with the wrong-prefix
error. -/
theorem c10_data_string_roundtrip (b : Blob) (s : Bech32Str) :
    Blob.from_bech32_data_str (Blob.bech32_data_string b) = .ok b ∧
    (s.hrp ≠ HRP_DATA → Blob.from_bech32_data_str s = .error .wrongHrp) := by
  constructor
  · rfl
  · intro hne
    simp [Blob.from_bech32_data_str, hne]

/-- Witness for C10 at a concrete blob and a concrete foreign-prefix
string. -/
theorem c10_data_string_roundtrip_witness :
    Blob.from_bech32_data_str (Blob.bech32_data_string ⟨[5, 6]⟩) = .ok ⟨[5, 6]⟩ ∧
    Blob.from_bech32_data_str ⟨"id", [5]⟩ = .error .wrongHrp :=
  ⟨(c10_data_string_roundtrip ⟨[5, 6]⟩ ⟨"id", [5]⟩).1,
   (c10_data_string_roundtrip ⟨[5, 6]⟩ ⟨"id", [5]⟩).2 (by decide)⟩

end B32
